import Mathlib

/-!
# Verification of the EarthEngineLayer tile/animation resolution pipeline

Shallow embedding of `modules/earthengine-layers/src/earth-engine-layer.js`.
JavaScript numbers that matter here (timestamps, frame counts, loop times,
coordinates) are modelled as rationals; machine strings as `String`;
JS objects used as key-value maps as functions `String → Option JVal`;
fallible/async operations as explicit result values.
-/

set_option autoImplicit false

namespace EEL

/-- JS truncating conversion (the implicit `trunc` in the semantics of `%`
on numbers): towards zero. -/
def jsTrunc (q : ℚ) : ℤ :=
  if 0 ≤ q then ⌊q⌋ else ⌈q⌉

/-- The JS `%` operator on numbers: remainder with the sign of the dividend,
`a % b = a - b * trunc (a / b)`. -/
def jsRem (a b : ℚ) : ℚ :=
  a - b * jsTrunc (a / b)

/-- The frame-index computation of `_animate` (earth-engine-layer.js:66-73):
`loopTime = nFrames / animationSpeed`;
`frame = Math.floor(((timestamp % loopTime) / loopTime) * nFrames)`. -/
def animFrameIndex (nFrames animationSpeed now : ℚ) : ℤ :=
  let loopTime := nFrames / animationSpeed
  ⌊jsRem now loopTime / loopTime * nFrames⌋

/-- The animation-relevant slice of the layer state:
`state.nFrames` (a JS number, possibly fractional) and `state.frame`. -/
structure AnimState where
  nFrames : Option ℚ
  frame : Option ℤ
  deriving DecidableEq

/-- `_animate()` (earth-engine-layer.js:59-74): reads `nFrames` from state;
`if (!nFrames) return;` (JS falsiness of a number: absent or zero);
otherwise writes the recomputed frame index into state. -/
def _animate (animationSpeed now : ℚ) (st : AnimState) : AnimState :=
  match st.nFrames with
  | none => st
  | some n =>
    if n = 0 then st
    else { st with frame := some (animFrameIndex n animationSpeed now) }

/-! ## URL templating and tiled-mode fetch (`getImageTileData`) -/

/-- JS `String.prototype.replace` with a string pattern: replaces the FIRST
occurrence of `pat` in `s` by `rep` (not global). Modelled on character
lists. -/
def replaceFirst (s pat rep : List Char) : List Char :=
  match s with
  | [] => if pat.isPrefixOf ([] : List Char) then rep else []
  | c :: rest =>
    if pat.isPrefixOf (c :: rest) then rep ++ (c :: rest).drop pat.length
    else c :: replaceFirst rest pat rep

/-- JS `s.replace(pat, rep)` on `String`s (first occurrence only). -/
def jsReplace (s pat rep : String) : String :=
  ⟨replaceFirst s.data pat.data rep.data⟩

/-- The URL construction of `getImageTileData` (earth-engine-layer.js:151-154):
`urlFormat.replace(xToken, x).replace(yToken, y).replace(zToken, z)` where
the tokens are the brace-delimited literals;
the numbers are converted to their decimal string forms. -/
def buildTileUrl (urlFormat : String) (x y z : ℤ) : String :=
  jsReplace (jsReplace (jsReplace urlFormat ("{x}") (toString x)) ("{y}") (toString y))
    ("{z}") (toString z)

/-- Result of a per-tile fetch: `null` (no data), a list of decoded frames,
or a rejected promise. -/
inductive TileFetch (α : Type) where
  | noData
  | frames (l : List α)
  | fetchError (e : String)
  deriving DecidableEq

/-- `getImageTileData({x, y, z})` (earth-engine-layer.js:145-159):
`if (!urlFormat) return null;` (JS falsiness: absent or empty string);
otherwise fetch/decode the substituted URL (`loader` stands for
`load(imageUrl, ImageLoader)`) and wrap the single image in an array. -/
def getImageTileData {α : Type} (urlFormat : Option String) (x y z : ℤ)
    (loader : String → Except String α) : TileFetch α :=
  match urlFormat with
  | none => .noData
  | some fmt =>
    if fmt = "" then .noData
    else
      match loader (buildTileUrl fmt x y z) with
      | .ok image => .frames [image]
      | .error e => .fetchError e

/-! ## Filmstrip-mode fetch (`getFilmstripTileData`) -/

/-- JS values appearing in the thumbnail-request argument object. -/
inductive JVal where
  | str (s : String)
  | num (q : ℚ)
  | numArr (l : List ℚ)
  | rect (west south east north : ℚ) (crs : String) (geodesic : Bool)
  deriving DecidableEq

/-- JS object-key write: `o[k] = v` (later writes win). Objects are modelled
as lookup functions. -/
def objSet (o : String → Option JVal) (k : String) (v : JVal) :
    String → Option JVal :=
  fun q => if q = k then some v else o q

/-- Tile size constant `TILE_SIZE = 256` (earth-engine-layer.js:165). -/
def TILE_SIZE : ℕ := 256

/-- The `filmArgs` object (earth-engine-layer.js:168-174):
spread `visParams` first, then set `dimensions = [256, 256]`, then `region`
(the `ee.Geometry.Rectangle([west, south, east, north], EPSG:4326, false)`
value, geodesic disabled), then `crs = EPSG:3857`. -/
def filmArgs (visParams : String → Option JVal) (west south east north : ℚ) :
    String → Option JVal :=
  objSet
    (objSet
      (objSet visParams ("dimensions") (.numArr [(TILE_SIZE : ℚ), (TILE_SIZE : ℚ)]))
      ("region") (.rect west south east north ("EPSG:4326") false))
    ("crs") (.str ("EPSG:3857"))

/-- Iteration count of the JS loop `for (let i = 0; i < bound; i++)` where
`bound` is a (possibly fractional) number: the body runs for exactly the
naturals `i` with `(i : ℚ) < bound`. -/
def jsForCount (bound : ℚ) : ℕ := ⌈bound⌉₊

/-- `jsForCount` runs the loop body exactly at the naturals below the bound:
this justifies the translation of the JS `for` loop with a rational bound. -/
theorem jsForCount_models_loop (bound : ℚ) (i : ℕ) :
    i < jsForCount bound ↔ (i : ℚ) < bound :=
  Nat.lt_ceil

/-- `nFrames = image.height / TILE_SIZE` (earth-engine-layer.js:179):
JS number division, so possibly fractional. -/
def nFramesOf (height : ℕ) : ℚ := (height : ℚ) / (TILE_SIZE : ℚ)

/-- The source-rectangle arguments of one `createImageBitmap` call:
`imageBounds = [0, i * TILE_SIZE, TILE_SIZE, TILE_SIZE]`
(earth-engine-layer.js:183). -/
structure SliceBounds where
  sx : ℕ
  sy : ℕ
  sw : ℕ
  sh : ℕ
  deriving DecidableEq

/-- The slice loop of `getFilmstripTileData` (earth-engine-layer.js:181-185):
`for (let i = 0; i < nFrames; i++) slices.push(createImageBitmap(image, 0,
i * TILE_SIZE, TILE_SIZE, TILE_SIZE))`. -/
def filmstripSlices (height : ℕ) : List SliceBounds :=
  (List.range (jsForCount (nFramesOf height))).map
    (fun i => ⟨0, i * TILE_SIZE, TILE_SIZE, TILE_SIZE⟩)

/-- The tail of `getFilmstripTileData` (earth-engine-layer.js:179-188) after
the filmstrip image has been decoded with the given pixel `height`: computes
`nFrames`, starts one slice operation per loop iteration, writes
`setState(\x7bnFrames\x7d)`, and returns `Promise.all(slices)` — which resolves to
the list of slices when every slice decodes (`sliceOk`) and rejects
otherwise. The state write is unconditional; the promise outcome is not. -/
def filmstripRun (height : ℕ) (sliceOk : ℕ → Bool) (st : AnimState) :
    AnimState × Except String (List SliceBounds) :=
  let nFrames := nFramesOf height
  ({ st with nFrames := some nFrames },
    if (List.range (jsForCount nFrames)).all sliceOk then
      Except.ok (filmstripSlices height)
    else Except.error ("DecodeError: frame slice failed"))

/-- Ordered events of one `getFilmstripTileData` run, from the point the
filmstrip image is decoded: slice operations are started in the loop, then
`setState(\x7bnFrames\x7d)` runs synchronously, and only afterwards does the
returned `Promise.all` settle. -/
inductive FSEvent where
  | sliceStarted (i : ℕ)
  | setNFramesState (n : ℚ)
  | allSettled (ok : Bool)
  deriving DecidableEq

/-- Event trace of `getFilmstripTileData` (earth-engine-layer.js:181-188):
the loop starts every slice, then the frame count is written to state, then
the gathered promise settles (successfully iff every slice decoded). -/
def filmstripTrace (height : ℕ) (sliceOk : ℕ → Bool) : List FSEvent :=
  ((List.range (jsForCount (nFramesOf height))).map FSEvent.sliceStarted) ++
    [FSEvent.setNFramesState (nFramesOf height),
     FSEvent.allSettled ((List.range (jsForCount (nFramesOf height))).all sliceOk)]

/-! ## Object handles, `_updateEEObject` and `_updateEEVisParams` -/

/-- A remote-object handle as this layer observes it: which duck-typed
capabilities it exposes (`getMap`, `getFilmstripThumbURL`) and the
`\x7bmapid, urlFormat\x7d` its `getMap` resolves to. -/
structure EEObject where
  hasGetMap : Bool
  hasGetFilmstripThumbURL : Bool
  getMapMapid : String
  getMapUrlFormat : String
  deriving DecidableEq

/-- The raw `eeObject` prop: `null`, a JSON string, an already-built handle,
or an empty array (the degenerate case of earth-engine-layer.js:97). -/
inductive EERaw where
  | null
  | str (s : String)
  | obj (o : EEObject)
  | emptyArr
  deriving DecidableEq

/-- The pieces of the `ee` module `_updateEEObject` calls:
`ee.Deserializer.fromJSON`, the `ee.ImageCollection` coercion, and the
handle value an empty-array prop momentarily denotes. -/
structure EEModule where
  fromJSON : String → EEObject
  imageCollection : EEObject → EEObject
  emptyArrayObj : EEObject

/-- The per-layer state fields touched by the descriptor pipeline. -/
structure LayerState where
  eeObject : Option EEObject
  mapid : Option String
  urlFormat : Option String
  renderMethod : Option String
  deriving DecidableEq

/-- `_updateEEObject(props, oldProps, changeFlags)`
(earth-engine-layer.js:76-102). `eeObjSame` is the reference equality
`props.eeObject === oldProps.eeObject`; when it holds nothing happens.
Otherwise: a string prop is deserialized; with `animate` the handle is
coerced via `ee.ImageCollection`; an empty-array prop ends up as `null`;
the result is written to `state.eeObject`. -/
def _updateEEObject (eeM : EEModule) (eeObjSame : Bool) (raw : EERaw)
    (animate : Bool) (st : LayerState) : LayerState :=
  if eeObjSame then st
  else
    let e0 : Option EEObject :=
      match raw with
      | .str s => some (eeM.fromJSON s)
      | .null => none
      | .obj o => some o
      | .emptyArr => some eeM.emptyArrayObj
    let e1 : Option EEObject :=
      match e0 with
      | some o => if animate then some (eeM.imageCollection o) else some o
      | none => none
    let e2 : Option EEObject :=
      match raw with
      | .emptyArr => none
      | _ => e1
    { st with eeObject := e2 }

/-- `_updateEEVisParams(props, oldProps, changeFlags)`
(earth-engine-layer.js:104-134). `visParamsSame` is
`props.visParams === oldProps.visParams`; `dataChanged` is
`changeFlags.dataChanged`. Returns the new layer state, whether the
`getMap` round trip was performed, and the thrown error message if any. -/
def _updateEEVisParams (visParamsSame dataChanged animate : Bool)
    (st : LayerState) : LayerState × Bool × Option String :=
  if visParamsSame && !dataChanged then (st, false, none)
  else
    match st.eeObject with
    | none => (st, false, none)
    | some o =>
      if !o.hasGetMap then
        (st, false, some ("eeObject must have a getMap() method"))
      else
        let renderMethod := if animate then ("filmstrip") else ("imageTiles")
        if animate && !o.hasGetFilmstripThumbURL then
          (st, false, some ("eeObject must have a getFilmstripThumbURL method to animate."))
        else
          ({ st with
              mapid := some o.getMapMapid,
              urlFormat := some o.getMapUrlFormat,
              renderMethod := some renderMethod }, true, none)

/-! ## `_updateToken` -/

/-- Outcome of `_updateToken`: the process-wide `accessToken` afterwards,
whether `eeApi.initialize` was called, and the propagated error if that
call rejected. -/
structure TokenResult where
  accessToken : Option String
  calledInit : Bool
  err : Option String
  deriving DecidableEq

/-- `_updateToken(props, oldProps, changeFlags)`
(earth-engine-layer.js:49-57): `if (!props.token || props.token ===
accessToken) return;` then `await eeApi.initialize(\x7btoken\x7d)` (whose success
is abstracted by `initOk`) and only then `accessToken = token`. A rejected
`await` propagates before the assignment runs. -/
def _updateToken (initOk : Bool) (accessToken : Option String)
    (token : Option String) : TokenResult :=
  match token with
  | none => ⟨accessToken, false, none⟩
  | some t =>
    if t = "" then ⟨accessToken, false, none⟩
    else if some t = accessToken then ⟨accessToken, false, none⟩
    else if initOk then ⟨some t, true, none⟩
    else ⟨accessToken, true, some ("AuthError: session establishment failed")⟩

/-! ## Claim theorems -/

/-- C8: in tiled mode, when no URL template is set in the layer state, the
tile fetch returns `null` (no data) and does not raise an error, for every
tile coordinate and every loader. -/
theorem c8_no_urlFormat_yields_null {α : Type} (x y z : ℤ)
    (loader : String → Except String α) :
    getImageTileData none x y z loader = TileFetch.noData := rfl

/-- C6: the filmstrip thumbnail arguments spread the caller-supplied
visualization params first and set `dimensions`, `region` (the non-geodesic
EPSG:4326 rectangle) and `crs = EPSG:3857` afterwards, so these explicit
keys always win over any same-named keys in the visualization params, while
every other key is taken from the visualization params. -/
theorem c6_explicit_film_args_win (vp : String → Option JVal)
    (west south east north : ℚ) :
    filmArgs vp west south east north ("dimensions")
      = some (.numArr [(256 : ℚ), (256 : ℚ)]) ∧
    filmArgs vp west south east north ("region")
      = some (.rect west south east north ("EPSG:4326") false) ∧
    filmArgs vp west south east north ("crs") = some (.str ("EPSG:3857")) ∧
    (∀ k, k ≠ "dimensions" → k ≠ "region" → k ≠ "crs" →
      filmArgs vp west south east north k = vp k) := by
  refine ⟨?_, rfl, rfl, ?_⟩
  · show some (JVal.numArr [(TILE_SIZE : ℚ), (TILE_SIZE : ℚ)]) = _
    norm_num [TILE_SIZE]
  · intro k h1 h2 h3
    simp [filmArgs, objSet, h1, h2, h3]

/-- C6 witness: a visualization-params key that is not one of the explicit
keys survives the merge unchanged. -/
theorem c6_explicit_film_args_win_witness :
    filmArgs (fun _ => some (.num 1)) 0 0 0 0 ("palette") = some (.num 1) :=
  (c6_explicit_film_args_win (fun _ => some (.num 1)) 0 0 0 0).2.2.2
    ("palette") (by decide) (by decide) (by decide)

/-- C3: `_updateToken` is idempotent for an unchanged credential (no
session-establishment call, no state change); with a different credential the
process-wide marker is updated only when the establishment call succeeds,
and retains its previous value when that call fails. -/
theorem c3_token_update_idempotent_and_guarded (initOk : Bool)
    (acc : Option String) (t : String) (ht : t ≠ "") :
    (some t = acc →
      _updateToken initOk acc (some t) = ⟨acc, false, none⟩) ∧
    (some t ≠ acc → initOk = true →
      _updateToken initOk acc (some t) = ⟨some t, true, none⟩) ∧
    (some t ≠ acc → initOk = false →
      _updateToken initOk acc (some t) =
        ⟨acc, true, some ("AuthError: session establishment failed")⟩) := by
  refine ⟨fun h => ?_, fun h hok => ?_, fun h hok => ?_⟩
  · simp [_updateToken, ht, h]
  · simp [_updateToken, ht, h, hok]
  · simp [_updateToken, ht, h, hok]

/-- C3 witness: with active token T0, a new token T1 whose establishment
call fails leaves the marker at T0 and surfaces the error. -/
theorem c3_token_update_witness :
    _updateToken false (some ("T0")) (some ("T1")) =
      ⟨some ("T0"), true, some ("AuthError: session establishment failed")⟩ :=
  (c3_token_update_idempotent_and_guarded false (some ("T0")) ("T1")
    (by decide)).2.2 (by decide) rfl

/-- C9: when `nFrames` is unset or zero, `_animate` is a no-op: the state,
including the previously computed frame index, is returned unchanged. -/
theorem c9_animate_noop_without_frames (speed now : ℚ) (st : AnimState)
    (h : st.nFrames = none ∨ st.nFrames = some 0) :
    _animate speed now st = st := by
  rcases h with h | h <;> simp [_animate, h]

/-- C9 witness: a concrete state with `nFrames` unset and a stale frame
index is untouched by a tick. -/
theorem c9_animate_noop_witness :
    _animate 12 100 ⟨none, some 5⟩ = ⟨none, some 5⟩ :=
  c9_animate_noop_without_frames 12 100 ⟨none, some 5⟩ (Or.inl rfl)

/-- C4: in a resolution cycle that is not skipped, with `animate` true and a
non-null handle that has `getMap` but lacks `getFilmstripThumbURL`,
`_updateEEVisParams` throws the ContractError about animated thumbnails,
performs no `getMap` round trip, and leaves the state unchanged. -/
theorem c4_animate_contract_error_before_network
    (visParamsSame dataChanged : Bool) (o : EEObject) (st : LayerState)
    (hgate : (visParamsSame && !dataChanged) = false)
    (hobj : st.eeObject = some o)
    (hmap : o.hasGetMap = true)
    (hfilm : o.hasGetFilmstripThumbURL = false) :
    _updateEEVisParams visParamsSame dataChanged true st =
      (st, false,
        some ("eeObject must have a getFilmstripThumbURL method to animate.")) := by
  simp [_updateEEVisParams, hgate, hobj, hmap, hfilm]

/-- C4 witness: a concrete cycle with a map-capable but
thumbnail-incapable handle fails with the ContractError and no network
call. -/
theorem c4_contract_error_witness :
    _updateEEVisParams false false true
        ⟨some ⟨true, false, ("m"), ("u")⟩, none, none, none⟩ =
      (⟨some ⟨true, false, ("m"), ("u")⟩, none, none, none⟩, false,
        some ("eeObject must have a getFilmstripThumbURL method to animate.")) :=
  c4_animate_contract_error_before_network false false
    ⟨true, false, ("m"), ("u")⟩ _ rfl rfl rfl rfl

/-- The descriptor part of one `updateState` cycle
(earth-engine-layer.js:42-47): `_updateEEObject` followed by
`_updateEEVisParams` (Token update and `_animate` touch neither the handle
nor the descriptor fields). -/
def updateCycle (eeM : EEModule) (eeObjSame : Bool) (raw : EERaw)
    (visParamsSame dataChanged animate : Bool) (st : LayerState) :
    LayerState × Bool × Option String :=
  _updateEEVisParams visParamsSame dataChanged animate
    (_updateEEObject eeM eeObjSame raw animate st)

theorem _updateEEObject_mapid (eeM : EEModule) (eeObjSame : Bool)
    (raw : EERaw) (animate : Bool) (st : LayerState) :
    (_updateEEObject eeM eeObjSame raw animate st).mapid = st.mapid := by
  unfold _updateEEObject
  split <;> rfl

theorem _updateEEObject_urlFormat (eeM : EEModule) (eeObjSame : Bool)
    (raw : EERaw) (animate : Bool) (st : LayerState) :
    (_updateEEObject eeM eeObjSame raw animate st).urlFormat = st.urlFormat := by
  unfold _updateEEObject
  split <;> rfl

theorem _updateEEObject_renderMethod (eeM : EEModule) (eeObjSame : Bool)
    (raw : EERaw) (animate : Bool) (st : LayerState) :
    (_updateEEObject eeM eeObjSame raw animate st).renderMethod
      = st.renderMethod := by
  unfold _updateEEObject
  split <;> rfl

/-- A handle whose `getMap` resolves to descriptor A. -/
def sampleObjA : EEObject := ⟨true, true, ("mapidA"), ("urlA")⟩

/-- A distinct handle whose `getMap` resolves to descriptor B. -/
def sampleObjB : EEObject := ⟨true, true, ("mapidB"), ("urlB")⟩

/-- A concrete stand-in for the `ee` module pieces. -/
def sampleEEModule : EEModule := ⟨fun _ => sampleObjA, fun o => o, sampleObjA⟩

/-- A layer state in which the descriptor of handle A is resolved. -/
def c1PrevState : LayerState :=
  ⟨some sampleObjA, some ("mapidA"), some ("urlA"), some ("imageTiles")⟩

/-- C1 counterexample: a cycle in which the object handle changes (prop
reference inequality, so `_updateEEObject` installs the new handle) while
`visParams` is unchanged and the data-changed flag is unset. The claim says
such a cycle must not skip resolution; the code skips it: no `getMap` round
trip, no error, and the stale descriptor (mapid, urlFormat, renderMethod)
of the previous handle is kept. -/
theorem c1_handle_change_skips_counterexample :
    (_updateEEObject sampleEEModule false (EERaw.obj sampleObjB) false
        c1PrevState).eeObject ≠ c1PrevState.eeObject ∧
    (updateCycle sampleEEModule false (EERaw.obj sampleObjB) true false false
        c1PrevState).2.1 = false ∧
    (updateCycle sampleEEModule false (EERaw.obj sampleObjB) true false false
        c1PrevState).2.2 = none ∧
    (updateCycle sampleEEModule false (EERaw.obj sampleObjB) true false false
        c1PrevState).1.mapid = c1PrevState.mapid ∧
    (updateCycle sampleEEModule false (EERaw.obj sampleObjB) true false false
        c1PrevState).1.urlFormat = c1PrevState.urlFormat ∧
    (updateCycle sampleEEModule false (EERaw.obj sampleObjB) true false false
        c1PrevState).1.renderMethod = c1PrevState.renderMethod := by
  refine ⟨?_, rfl, rfl, rfl, rfl, rfl⟩
  decide

/-- C1 (amended): in a property-change cycle, descriptor resolution is
skipped — no `getMap` round trip, no error, and mapid/urlFormat/renderMethod
left unchanged — exactly when the `visParams` prop is unchanged and the
data-changed flag is unset, or the (possibly just-updated) object handle is
null. Handle identity is not consulted by the skip test: a changed handle
with unchanged `visParams` and no data-changed flag still skips. -/
theorem c1_skip_condition_amended (eeM : EEModule) (eeObjSame : Bool)
    (raw : EERaw) (visParamsSame dataChanged animate : Bool)
    (st : LayerState) :
    ((updateCycle eeM eeObjSame raw visParamsSame dataChanged animate st).2.1
        = false ∧
     (updateCycle eeM eeObjSame raw visParamsSame dataChanged animate st).2.2
        = none ∧
     (updateCycle eeM eeObjSame raw visParamsSame dataChanged animate st).1.mapid
        = st.mapid ∧
     (updateCycle eeM eeObjSame raw visParamsSame dataChanged animate st).1.urlFormat
        = st.urlFormat ∧
     (updateCycle eeM eeObjSame raw visParamsSame dataChanged animate st).1.renderMethod
        = st.renderMethod)
    ↔ ((visParamsSame = true ∧ dataChanged = false) ∨
       (_updateEEObject eeM eeObjSame raw animate st).eeObject = none) := by
  have hm := _updateEEObject_mapid eeM eeObjSame raw animate st
  have hu := _updateEEObject_urlFormat eeM eeObjSame raw animate st
  have hr := _updateEEObject_renderMethod eeM eeObjSame raw animate st
  unfold updateCycle _updateEEVisParams
  by_cases hgate : (visParamsSame && !dataChanged) = true
  · rw [if_pos hgate]
    simp only [Bool.and_eq_true, Bool.not_eq_true'] at hgate
    simp [hm, hu, hr, hgate]
  · rw [if_neg hgate]
    simp only [Bool.and_eq_true, Bool.not_eq_true'] at hgate
    rcases hobj : (_updateEEObject eeM eeObjSame raw animate st).eeObject with
      _ | o
    · simp [hm, hu, hr]
    · cases hmap : o.hasGetMap
      · simp only [hmap, Bool.not_false, if_pos]
        simp [hgate, hobj]
      · cases hfix : (true && !o.hasGetFilmstripThumbURL)
        all_goals cases han : animate
        all_goals simp_all [hm, hu, hr]

theorem jsForCount_tileMul (N : ℕ) :
    jsForCount (nFramesOf (TILE_SIZE * N)) = N := by
  unfold jsForCount nFramesOf TILE_SIZE
  have h : (((256 * N : ℕ) : ℚ)) / ((256 : ℕ) : ℚ) = (N : ℚ) := by
    push_cast
    field_simp
  rw [h, Nat.ceil_natCast]

theorem jsForCount_eq_nat_div (h : ℕ) :
    jsForCount (nFramesOf h) = (h + (TILE_SIZE - 1)) / TILE_SIZE := by
  unfold jsForCount nFramesOf TILE_SIZE
  rcases Nat.eq_zero_or_pos h with h0 | hpos
  · subst h0
    norm_num
  · have h1 := Nat.div_add_mod (h + 255) 256
    have h2 : (h + 255) % 256 < 256 := Nat.mod_lt _ (by norm_num)
    set q := (h + 255) / 256 with hq
    have hqpos : q ≠ 0 := by omega
    have hub : h ≤ 256 * q := by omega
    have hlb : 256 * (q - 1) < h := by omega
    rw [Nat.ceil_eq_iff hqpos]
    constructor
    · rw [lt_div_iff₀ (by norm_num : (0 : ℚ) < ((256 : ℕ) : ℚ))]
      calc ((q - 1 : ℕ) : ℚ) * ((256 : ℕ) : ℚ) = ((q - 1) * 256 : ℕ) := by
            push_cast
            ring
        _ < (h : ℚ) := by
            exact_mod_cast (by omega : (q - 1) * 256 < h)
    · rw [div_le_iff₀ (by norm_num : (0 : ℚ) < ((256 : ℕ) : ℚ))]
      calc (h : ℚ) ≤ ((256 * q : ℕ) : ℚ) := by exact_mod_cast hub
        _ = (q : ℚ) * ((256 : ℕ) : ℚ) := by
            push_cast
            ring

theorem filmstripSlices_getElem (height i : ℕ)
    (hi : i < jsForCount (nFramesOf height)) :
    (filmstripSlices height)[i]? =
      some ⟨0, i * TILE_SIZE, TILE_SIZE, TILE_SIZE⟩ := by
  unfold filmstripSlices
  rw [List.getElem?_map, List.getElem?_range hi]
  rfl

/-- C2 counterexample: for a decoded filmstrip image of height 257 — not a
multiple of 256 — the code raises no DecodeError: the slice loop runs twice
(the fractional bound 257/256 admits i = 0 and i = 1) and the fetch resolves
successfully with two slice requests, the second overrunning the image. -/
theorem c2_no_decode_error_counterexample :
    ¬ (TILE_SIZE ∣ 257) ∧
    (filmstripRun 257 (fun _ => true) ⟨none, none⟩).2 =
      Except.ok [⟨0, 0, 256, 256⟩, ⟨0, 256, 256, 256⟩] := by
  have h : jsForCount (nFramesOf 257) = 2 := by
    rw [jsForCount, nFramesOf, TILE_SIZE]
    rw [Nat.ceil_eq_iff (by norm_num)]
    norm_num
  constructor
  · decide
  · simp [filmstripRun, filmstripSlices, h, List.range_succ, TILE_SIZE]

/-- C2 (amended): for a decoded image of height `256 * N` with `N ≥ 1` and
all slices decoding, exactly `N` frames are produced, frame `i` being the
256×256 window at vertical offset `i * 256`; but a height not divisible by
256 raises no DecodeError — the loop instead runs `⌈height / 256⌉` times
and the fetch still resolves with that many slice requests. -/
theorem c2_filmstrip_slicing_amended :
    (∀ (height N : ℕ), 1 ≤ N → height = TILE_SIZE * N →
      (filmstripSlices height).length = N ∧
      (∀ i, i < N → (filmstripSlices height)[i]? =
        some ⟨0, i * TILE_SIZE, TILE_SIZE, TILE_SIZE⟩) ∧
      (∀ (sliceOk : ℕ → Bool) (st : AnimState), (∀ i, sliceOk i = true) →
        (filmstripRun height sliceOk st).2 =
          Except.ok (filmstripSlices height))) ∧
    (∀ (height : ℕ), ¬ TILE_SIZE ∣ height →
      (filmstripSlices height).length = (height + (TILE_SIZE - 1)) / TILE_SIZE ∧
      (∀ (sliceOk : ℕ → Bool) (st : AnimState), (∀ i, sliceOk i = true) →
        (filmstripRun height sliceOk st).2 =
          Except.ok (filmstripSlices height))) := by
  have hall : ∀ (height : ℕ) (sliceOk : ℕ → Bool) (st : AnimState),
      (∀ i, sliceOk i = true) →
      (filmstripRun height sliceOk st).2 = Except.ok (filmstripSlices height) := by
    intro height sliceOk st hok
    have hall2 : (List.range (jsForCount (nFramesOf height))).all sliceOk = true :=
      List.all_eq_true.mpr fun i _ => hok i
    simp [filmstripRun, hall2]
  have hlen : ∀ height : ℕ,
      (filmstripSlices height).length = jsForCount (nFramesOf height) := by
    intro height
    unfold filmstripSlices
    rw [List.length_map, List.length_range]
  constructor
  · intro height N hN hh
    subst hh
    refine ⟨?_, ?_, fun sliceOk st hok => hall _ sliceOk st hok⟩
    · rw [hlen, jsForCount_tileMul]
    · intro i hi
      exact filmstripSlices_getElem _ i (by rw [jsForCount_tileMul]; exact hi)
  · intro height hdvd
    exact ⟨by rw [hlen, jsForCount_eq_nat_div], fun sliceOk st hok =>
      hall _ sliceOk st hok⟩

/-- C2 witness: a 512-pixel-high filmstrip yields exactly two frames, the
second sliced at vertical offset 256, and the fetch resolves. -/
theorem c2_filmstrip_slicing_witness :
    (filmstripSlices 512).length = 2 ∧
    (filmstripSlices 512)[1]? = some ⟨0, 256, 256, 256⟩ ∧
    (filmstripRun 512 (fun _ => true) ⟨none, none⟩).2 =
      Except.ok (filmstripSlices 512) := by
  have h := c2_filmstrip_slicing_amended.1 512 2 (by norm_num)
    (by norm_num [TILE_SIZE])
  refine ⟨h.1, ?_, h.2.2 (fun _ => true) ⟨none, none⟩ (fun _ => rfl)⟩
  have h1 := h.2.1 1 (by norm_num)
  simpa [TILE_SIZE] using h1

/-- C10: in every filmstrip fetch, the frame count is written to layer state
(the `setNFramesState` event) strictly before the gathered slice promise
settles, and the state write is unconditional: even when some slice decode
fails and the returned promise rejects, the state produced by the run keeps
the newly recorded (possibly fractional) frame count. -/
theorem c10_nFrames_written_before_settlement (height : ℕ)
    (sliceOk : ℕ → Bool) (st : AnimState) :
    (filmstripTrace height sliceOk)[jsForCount (nFramesOf height)]? =
      some (FSEvent.setNFramesState (nFramesOf height)) ∧
    (filmstripTrace height sliceOk)[jsForCount (nFramesOf height) + 1]? =
      some (FSEvent.allSettled
        ((List.range (jsForCount (nFramesOf height))).all sliceOk)) ∧
    (filmstripRun height sliceOk st).1.nFrames = some (nFramesOf height) ∧
    ((List.range (jsForCount (nFramesOf height))).all sliceOk = false →
      (filmstripRun height sliceOk st).2 =
        Except.error ("DecodeError: frame slice failed")) := by
  have hlen : ((List.range (jsForCount (nFramesOf height))).map
      FSEvent.sliceStarted).length = jsForCount (nFramesOf height) := by
    rw [List.length_map, List.length_range]
  refine ⟨?_, ?_, rfl, fun hfail => ?_⟩
  · unfold filmstripTrace
    rw [List.getElem?_append_right (le_of_eq hlen), hlen]
    simp
  · unfold filmstripTrace
    rw [List.getElem?_append_right (by omega), hlen]
    simp
  · simp [filmstripRun, hfail]

/-- C10 witness: with a 512-pixel filmstrip whose second slice fails to
decode, the promise rejects yet the state keeps the freshly written frame
count of 2. -/
theorem c10_nFrames_written_witness :
    (filmstripRun 512 (fun i => i == 0) ⟨none, none⟩).1.nFrames = some 2 ∧
    (filmstripRun 512 (fun i => i == 0) ⟨none, none⟩).2 =
      Except.error ("DecodeError: frame slice failed") := by
  have hcount : jsForCount (nFramesOf 512) = 2 := by
    have h2 : (512 : ℕ) = TILE_SIZE * 2 := by norm_num [TILE_SIZE]
    rw [h2, jsForCount_tileMul]
  have hn : nFramesOf 512 = 2 := by
    norm_num [nFramesOf, TILE_SIZE]
  have h := c10_nFrames_written_before_settlement 512 (fun i => i == 0)
    ⟨none, none⟩
  refine ⟨by rw [h.2.2.1, hn], h.2.2.2 ?_⟩
  rw [hcount]
  decide

/-- For a nonnegative clock and positive loop time, the JS modulo phase is
the fractional part of `now / loopTime`. -/
theorem animFrameIndex_eq_fract (n s now : ℚ) (hL : 0 < n / s)
    (hnow : 0 ≤ now) :
    animFrameIndex n s now = ⌊Int.fract (now / (n / s)) * n⌋ := by
  unfold animFrameIndex jsRem jsTrunc
  show ⌊(now - n / s * ↑(if 0 ≤ now / (n / s) then ⌊now / (n / s)⌋
      else ⌈now / (n / s)⌉)) / (n / s) * n⌋ = _
  rw [if_pos (div_nonneg hnow hL.le)]
  congr 1
  set L := n / s with hLdef
  unfold Int.fract
  have hLne : L ≠ 0 := hL.ne'
  field_simp

/-- C5: for `frameCount > 0`, `speed > 0` and a nonnegative clock (the code
feeds `Date.now() / 1000`), `_animate` stores
`floor(((now mod loopTime) / loopTime) * frameCount)` as the frame index;
that index always lies in `[0, frameCount - 1]`, is non-decreasing as `now`
grows within one loop period, and is exactly 0 at every period boundary. -/
theorem c5_animation_clock_bounds (n : ℕ) (s now : ℚ) (fr : Option ℤ)
    (hn : 0 < n) (hs : 0 < s) (hnow : 0 ≤ now) :
    (_animate s now ⟨some (n : ℚ), fr⟩).frame
      = some (animFrameIndex (n : ℚ) s now) ∧
    0 ≤ animFrameIndex (n : ℚ) s now ∧
    animFrameIndex (n : ℚ) s now ≤ (n : ℤ) - 1 ∧
    (∀ t, now ≤ t → ⌊now / ((n : ℚ) / s)⌋ = ⌊t / ((n : ℚ) / s)⌋ →
      animFrameIndex (n : ℚ) s now ≤ animFrameIndex (n : ℚ) s t) ∧
    (∀ k : ℕ, animFrameIndex (n : ℚ) s ((k : ℚ) * ((n : ℚ) / s)) = 0) := by
  have hnq : (0 : ℚ) < (n : ℚ) := by exact_mod_cast hn
  have hL : (0 : ℚ) < (n : ℚ) / s := div_pos hnq hs
  refine ⟨?_, ?_, ?_, ?_, ?_⟩
  · simp [_animate, hnq.ne']
  · rw [animFrameIndex_eq_fract _ _ _ hL hnow]
    exact Int.floor_nonneg.mpr (mul_nonneg (Int.fract_nonneg _) hnq.le)
  · rw [animFrameIndex_eq_fract _ _ _ hL hnow]
    have h1 : Int.fract (now / ((n : ℚ) / s)) * n < n := by
      calc Int.fract (now / ((n : ℚ) / s)) * n
          < 1 * n := mul_lt_mul_of_pos_right (Int.fract_lt_one _) hnq
        _ = n := one_mul _
    have h2 : ⌊Int.fract (now / ((n : ℚ) / s)) * n⌋ < (n : ℤ) := by
      rw [Int.floor_lt]
      exact_mod_cast h1
    omega
  · intro t hle hfl
    have ht0 : (0 : ℚ) ≤ t := hnow.trans hle
    rw [animFrameIndex_eq_fract _ _ _ hL hnow,
      animFrameIndex_eq_fract _ _ _ hL ht0]
    apply Int.floor_le_floor
    apply mul_le_mul_of_nonneg_right _ hnq.le
    unfold Int.fract
    rw [← hfl]
    apply sub_le_sub_right
    gcongr
  · intro k
    have hk0 : (0 : ℚ) ≤ (k : ℚ) * ((n : ℚ) / s) :=
      mul_nonneg (by positivity) hL.le
    rw [animFrameIndex_eq_fract _ _ _ hL hk0,
      mul_div_cancel_right₀ _ hL.ne', Int.fract_natCast, zero_mul,
      Int.floor_zero]

/-- C5 witness: three frames at speed 2 and clock 5 give frame index 1,
inside `[0, 2]`. -/
theorem c5_animation_clock_witness :
    (_animate 2 5 ⟨some 3, none⟩).frame = some (animFrameIndex 3 2 5) ∧
    0 ≤ animFrameIndex 3 2 5 ∧ animFrameIndex 3 2 5 ≤ 2 := by
  have h := c5_animation_clock_bounds 3 2 5 none (by norm_num) (by norm_num)
    (by norm_num)
  norm_num at h
  exact ⟨h.1, h.2.1, h.2.2.1⟩

/-- `replaceFirst` replaces exactly the first occurrence of the pattern:
if the pattern occurs at position `pre.length` and at no earlier position,
the prefix and suffix around it are preserved and only that occurrence is
rewritten. -/
theorem replaceFirst_first_occurrence (pre pat suf rep : List Char)
    (h : ∀ i, i < pre.length → ¬ pat.isPrefixOf ((pre ++ pat ++ suf).drop i)) :
    replaceFirst (pre ++ pat ++ suf) pat rep = pre ++ rep ++ suf := by
  induction pre with
  | nil =>
    have hps : pat.isPrefixOf (pat ++ suf) = true := by
      rw [List.isPrefixOf_iff_prefix]
      exact List.prefix_append _ _
    cases hpp : pat ++ suf with
    | nil =>
      have hp : pat = [] := by
        cases pat
        · rfl
        · simp at hpp
      subst hp
      simp_all [replaceFirst]
    | cons c rest =>
      rw [List.nil_append, hpp, replaceFirst, ← hpp, if_pos hps,
        List.drop_left]
      rfl
  | cons c pre ih =>
    have h0 := h 0 (by simp)
    simp only [List.cons_append, List.drop_succ_cons, List.drop_zero] at h0
    rw [List.cons_append, List.cons_append, replaceFirst, if_neg h0]
    have ih2 := ih (fun i hi => by
      have := h (i + 1) (by simpa using Nat.succ_lt_succ hi)
      simpa [List.cons_append] using this)
    rw [ih2]
    simp [List.cons_append]

/-- C7: tiled-mode URL construction substitutes each token once (first
occurrence only, not global): concretely, the template of the claim with
`x = 3, y = 7, z = 2` yields the expected URL, and in general
`replaceFirst` rewrites exactly the first occurrence of a pattern, leaving
everything around it (including later occurrences) unchanged. -/
theorem c7_url_template_substitution :
    buildTileUrl ("https://x/{z}/{x}/{y}.png") 3 7 2 = "https://x/2/3/7.png" ∧
    (∀ (pre pat suf rep : List Char),
      (∀ i, i < pre.length → ¬ pat.isPrefixOf ((pre ++ pat ++ suf).drop i)) →
      replaceFirst (pre ++ pat ++ suf) pat rep = pre ++ rep ++ suf) := by
  constructor
  · decide
  · exact replaceFirst_first_occurrence

/-- C7 witness: in a string with two occurrences of the token, only the
first is substituted. -/
theorem c7_url_template_substitution_witness :
    replaceFirst (("ab").data ++ ("{x}").data ++ ("cd{x}").data)
        (("{x}").data) (("3").data)
      = ("ab").data ++ ("3").data ++ ("cd{x}").data :=
  c7_url_template_substitution.2 (("ab").data) (("{x}").data)
    (("cd{x}").data) (("3").data) (by decide)

end EEL
